import Mathlib

/-!
# Verification of the anonymizerTS PII pipeline

A shallow embedding of the anonymizerTS repository (TypeScript).  The repository
contains two parallel implementations of the same pipeline:

* the "engine" pair `AnalyzerEngine` / `AnonymizerEngine` with the class-based
  `PatternRecognizer` and the `Operators.ts` operator classes
  (`src/analyzer/AnalyzerEngine.ts`, `src/anonymizer/AnonymizerEngine.ts`,
  `src/anonymizer/Operators.ts`, `src/recognizers/PatternRecognizer.ts`), and
* the "presidio" pair `PresidioAnalyzer` / `PresidioAnonymizer` with the static
  `PatternRecognizer` (`src/analyzer.ts`, `src/anonymizer.ts`,
  `src/patternRecognizer.ts`).

Modelling conventions:

* JS strings are `List Char` (ASCII fidelity: the concrete inputs exercised
  here are ASCII; JS Unicode whitespace beyond ASCII is not modelled).
* JS `number` scores are `ℚ` (the source only ever adds, compares and takes
  `Math.min` of decimal constants, which is exact).
* JS exceptions / rejected promises are `Except String`.
* The asynchronous NER recognizer and the `crypto` primitives are external
  collaborators; they enter as function parameters.
* `Array.prototype.sort` with a comparator is a stable sort on the comparator
  preorder (V8); it is modelled by `List.insertionSort`, which is stable.
-/

/-! ## JS string helpers -/

/-- JS whitespace class `\s` restricted to ASCII: space, tab, LF, VT, FF, CR. -/
def isJsSpace (c : Char) : Bool :=
  c = ' ' || c = '\t' || c = '\n' || c = '\x0b' || c = '\x0c' || c = '\r'

/-- `String.prototype.trim`. -/
def jsTrim (cs : List Char) : List Char :=
  ((cs.dropWhile isJsSpace).reverse.dropWhile isJsSpace).reverse

/-- Character at an index, `none` when out of range. -/
def getC (cs : List Char) (i : Nat) : Option Char := cs[i]?

/-- `String.prototype.substring start endp` (clamps both arguments; swaps when
`start > endp`). -/
def jsSubstring (cs : List Char) (a b : Nat) : List Char :=
  let a2 := min a cs.length
  let b2 := min b cs.length
  (cs.take (max a2 b2)).drop (min a2 b2)

/-- `String.prototype.substring` with one argument. -/
def jsSubstringFrom (cs : List Char) (a : Nat) : List Char := cs.drop a

/-- `String.prototype.repeat`: `n` copies of the whole string. -/
def repeatChars (s : List Char) (n : Nat) : List Char := (List.replicate n s).flatten

/-- `String.prototype.includes` (substring containment). -/
def jsIncludes (hay needle : List Char) : Bool :=
  match hay with
  | [] => needle.isPrefixOf []
  | _ :: rest => needle.isPrefixOf hay || jsIncludes rest needle

/-- `String.prototype.toLowerCase` (ASCII). -/
def toLowerChars (cs : List Char) : List Char := cs.map Char.toLower

/-! ## A backtracking matcher for the concrete regexes of the source

The recognizers use a fixed handful of regular expressions.  Each one is
translated into continuation-passing combinators that reproduce JS regex
semantics for these patterns: greedy quantifiers with backtracking, `\b` word
boundaries, and leftmost scanning with `lastIndex` advancing past each match. -/

/-- JS `\w`: `[A-Za-z0-9_]`. -/
def isWordChar (c : Char) : Bool := c.isAlpha || c.isDigit || c = '_'

/-- `\d`. -/
def isDigitChar (c : Char) : Bool := c.isDigit

/-- Whether the char (if any) at an index is a word char; positions outside the
string count as non-word. -/
def isWordAt (cs : List Char) (i : Nat) : Bool :=
  match getC cs i with
  | some c => isWordChar c
  | none => false

/-- JS `\b` at position `i`: word-ness differs between position `i-1` and `i`. -/
def boundaryAt (cs : List Char) (i : Nat) : Bool :=
  (if i = 0 then false else isWordAt cs (i-1)) != isWordAt cs i

/-- Length of the maximal run of characters satisfying `p` starting at `i`. -/
def runLen (cs : List Char) (p : Char → Bool) (i : Nat) : Nat :=
  runLenGo (cs.drop i) p
where
  runLenGo : List Char → (Char → Bool) → Nat
    | [], _ => 0
    | c :: rest, p => if p c then runLenGo rest p + 1 else 0

/-- A matcher continuation: given the current position, the end position of a
full match, if any. -/
abbrev MatchK := Nat → Option Nat

/-- Single character of a class. -/
def litC (cs : List Char) (p : Char → Bool) (k : MatchK) (j : Nat) : Option Nat :=
  match getC cs j with
  | some c => if p c then k (j+1) else none
  | none => none

/-- Greedy `X?` on a character class: try consuming, fall back to not consuming. -/
def optC (cs : List Char) (p : Char → Bool) (k : MatchK) (j : Nat) : Option Nat :=
  match getC cs j with
  | some c => if p c then (k (j+1)).orElse (fun _ => k j) else k j
  | none => k j

/-- Exactly `n` characters of a class (`X{n}`). -/
def repC (cs : List Char) (p : Char → Bool) : Nat → MatchK → MatchK
  | 0, k, j => k j
  | n+1, k, j => litC cs p (repC cs p n k) j

/-- Try match lengths `m, m-1, …, lo` (greedy backtracking for a counted
character-class quantifier). -/
def tryLens (k : MatchK) (j lo : Nat) : Nat → Option Nat
  | 0 => if lo = 0 then k j else none
  | m+1 => if m+1 < lo then none else (k (j + (m+1))).orElse (fun _ => tryLens k j lo m)

/-- Greedy `X{lo,}` on a character class. -/
def atLeastC (cs : List Char) (p : Char → Bool) (lo : Nat) (k : MatchK) (j : Nat) : Option Nat :=
  tryLens k j lo (runLen cs p j)

/-- Greedy `X{lo,hi}` on a character class. -/
def repRange (cs : List Char) (p : Char → Bool) (lo hi : Nat) (k : MatchK) (j : Nat) :
    Option Nat :=
  tryLens k j lo (min hi (runLen cs p j))

/-- `\b` as a combinator. -/
def boundaryC (cs : List Char) (k : MatchK) (j : Nat) : Option Nat :=
  if boundaryAt cs j then k j else none

/-- End of pattern. -/
def doneK : MatchK := fun j => some j

/-- `[-\s]` (credit-card separator). -/
def isCCSep (c : Char) : Bool := c = '-' || isJsSpace c

/-- `[-.\s]` (phone separator). -/
def isPhoneSep (c : Char) : Bool := c = '-' || c = '.' || isJsSpace c

/-- `[A-Za-z0-9._%+-]` (email local part). -/
def isEmailLocalChar (c : Char) : Bool :=
  c.isAlpha || c.isDigit || c = '.' || c = '_' || c = '%' || c = '+' || c = '-'

/-- `[A-Za-z0-9.-]` (email domain). -/
def isEmailDomChar (c : Char) : Bool := c.isAlpha || c.isDigit || c = '.' || c = '-'

/-- `[A-Z|a-z]` (email TLD; the source class literally contains `|`). -/
def isEmailTldChar (c : Char) : Bool := c.isAlpha || c = '|'

/-- `/\b[A-Za-z0-9._%+-]+@[A-Za-z0-9.-]+\.[A-Z|a-z]{2,}\b/` — the email pattern
used by both the static and the class-based pattern recognizer. -/
def matchEmailAt (cs : List Char) : Nat → Option Nat :=
  boundaryC cs (atLeastC cs isEmailLocalChar 1 (litC cs (fun c => c = '@')
    (atLeastC cs isEmailDomChar 1 (litC cs (fun c => c = '.')
      (atLeastC cs isEmailTldChar 2 (boundaryC cs doneK))))))

/-- `/\b(?:\d{4}[-\s]?){3}\d{4}\b/` (static recognizer) which expands to
`/\b\d{4}[-\s]?\d{4}[-\s]?\d{4}[-\s]?\d{4}\b/` (class-based recognizer): the
same credit-card pattern. -/
def matchCreditCardAt (cs : List Char) : Nat → Option Nat :=
  boundaryC cs (repC cs isDigitChar 4 (optC cs isCCSep
    (repC cs isDigitChar 4 (optC cs isCCSep
      (repC cs isDigitChar 4 (optC cs isCCSep
        (repC cs isDigitChar 4 (boundaryC cs doneK))))))))

/-- `/(\+?1[-.\s]?)?\(?\d{3}\)?[-.\s]?\d{3}[-.\s]?\d{4}\b/` (static phone
pattern; note: no leading `\b`). -/
def matchPhoneAt (cs : List Char) (i : Nat) : Option Nat :=
  let tail := optC cs (fun c => c = '(') (repC cs isDigitChar 3
    (optC cs (fun c => c = ')') (optC cs isPhoneSep (repC cs isDigitChar 3
      (optC cs isPhoneSep (repC cs isDigitChar 4 (boundaryC cs doneK)))))))
  let withGroup := optC cs (fun c => c = '+') (litC cs (fun c => c = '1')
    (optC cs isPhoneSep tail))
  (withGroup i).orElse (fun _ => tail i)

/-- `/\b\d{3}-\d{2}-\d{4}\b/` (static SSN pattern). -/
def matchSSNAt (cs : List Char) : Nat → Option Nat :=
  boundaryC cs (repC cs isDigitChar 3 (litC cs (fun c => c = '-')
    (repC cs isDigitChar 2 (litC cs (fun c => c = '-')
      (repC cs isDigitChar 4 (boundaryC cs doneK))))))

/-- `/\b(?:\d{1,3}\.){3}\d{1,3}\b/` (static IP pattern). -/
def matchIPAt (cs : List Char) : Nat → Option Nat :=
  boundaryC cs (repRange cs isDigitChar 1 3 (litC cs (fun c => c = '.')
    (repRange cs isDigitChar 1 3 (litC cs (fun c => c = '.')
      (repRange cs isDigitChar 1 3 (litC cs (fun c => c = '.')
        (repRange cs isDigitChar 1 3 (boundaryC cs doneK))))))))

/-- `/https?:\/\/[^\s]+/` (static URL pattern). -/
def matchURLAt (cs : List Char) : Nat → Option Nat :=
  litC cs (fun c => c = 'h') (litC cs (fun c => c = 't') (litC cs (fun c => c = 't')
    (litC cs (fun c => c = 'p') (optC cs (fun c => c = 's') (litC cs (fun c => c = ':')
      (litC cs (fun c => c = '/') (litC cs (fun c => c = '/')
        (atLeastC cs (fun c => !(isJsSpace c)) 1 doneK))))))))

/-- One step of the `RegExp.exec` / `matchAll` loop with a `/g` flag: scan
positions left to right, emit the greedy match at the first position that
matches, and continue from its end (the patterns above never produce an empty
match, so `max e (i+1)` equals `e`). -/
def scanGo (matchAt : Nat → Option Nat) (len : Nat) : Nat → Nat → List (Nat × Nat)
  | 0, _ => []
  | fuel+1, i =>
    if len < i then []
    else
      match matchAt i with
      | some e => (i, e) :: scanGo matchAt len fuel (max e (i+1))
      | none => scanGo matchAt len fuel (i+1)

/-- All matches of a pattern in a string, leftmost first. -/
def scanAll (matchAt : Nat → Option Nat) (len : Nat) : List (Nat × Nat) :=
  scanGo matchAt len (len + 2) 0

/-- The matched text `match[0]` for a span `[s, e)`. -/
def sliceText (cs : List Char) (s e : Nat) : List Char := (cs.take e).drop s

/-! ## Data model -/

/-- `RecognizerResult` (`types.ts`).  Entity types are their runtime string
values (TS string enums).  The engine variant declares `text` as optional; a
missing `text` and an empty `text` behave identically in all code modelled here
(JS truthiness), so `text` is a plain `List Char`. -/
structure RecognizerResult where
  entityType : String
  start : Nat
  «end» : Nat
  score : ℚ
  text : List Char
  deriving DecidableEq, Repr

/-- `OperatorConfig` (union of both variants' fields; `hashType` only exists in
the engine variant). -/
structure OperatorConfig where
  type : String
  newValue : Option (List Char) := none
  maskingChar : Option (List Char) := none
  hashType : Option String := none
  charsToMask : Option Int := none
  fromEnd : Option Bool := none
  deriving DecidableEq, Repr

/-- One audit item of an `AnonymizerResult` (same field set in both variants). -/
structure AnonymizerItem where
  start : Nat
  «end» : Nat
  entityType : String
  text : List Char
  operator : String
  deriving DecidableEq, Repr

/-- `AnonymizerResult`. -/
structure AnonymizerResult where
  text : List Char
  items : List AnonymizerItem
  deriving DecidableEq, Repr

/-- Comparator `(a, b) => a.start - b.start` as a preorder. -/
def byStartLe (a b : RecognizerResult) : Prop := a.start ≤ b.start

instance : DecidableRel byStartLe := fun a b => Nat.decLe a.start b.start

instance : IsTotal RecognizerResult byStartLe := ⟨fun a b => Nat.le_total a.start b.start⟩

instance : IsTrans RecognizerResult byStartLe :=
  ⟨fun _ _ _ h h2 => Nat.le_trans h h2⟩

/-- Comparator `(a, b) => b.start - a.start` (descending by start). -/
def byStartDesc (a b : RecognizerResult) : Prop := b.start ≤ a.start

instance : DecidableRel byStartDesc := fun a b => Nat.decLe b.start a.start

/-- Comparator of `PresidioAnalyzer.removeOverlaps`: start ascending, then
score descending. -/
def byStartThenScore (a b : RecognizerResult) : Prop :=
  a.start < b.start ∨ (a.start = b.start ∧ b.score ≤ a.score)

instance : DecidableRel byStartThenScore := fun a b =>
  inferInstanceAs (Decidable (a.start < b.start ∨ (a.start = b.start ∧ b.score ≤ a.score)))

/-! ## Static `PatternRecognizer` (`patternRecognizer.ts`, part of the
presidio pair) -/

namespace PatternRecognizer

/-- `findMatches`: run a pattern over the text and build results with a fixed
score. -/
def findMatches (matchAt : List Char → Nat → Option Nat) (text : List Char)
    (entityType : String) (score : ℚ) : List RecognizerResult :=
  (scanAll (matchAt text) text.length).map
    (fun se => ⟨entityType, se.1, se.2, score, sliceText text se.1 se.2⟩)

/-- `recognizeEmail` (score 0.9). -/
def recognizeEmail (text : List Char) : List RecognizerResult :=
  findMatches matchEmailAt text ("EMAIL_ADDRESS") (0.9 : ℚ)

/-- `recognizePhone` (score 0.85). -/
def recognizePhone (text : List Char) : List RecognizerResult :=
  findMatches matchPhoneAt text ("PHONE_NUMBER") (0.85 : ℚ)

/-- `recognizeCreditCard` (score 0.8; note: no Luhn validation here). -/
def recognizeCreditCard (text : List Char) : List RecognizerResult :=
  findMatches matchCreditCardAt text ("CREDIT_CARD") (0.8 : ℚ)

/-- `recognizeSSN` (score 0.9). -/
def recognizeSSN (text : List Char) : List RecognizerResult :=
  findMatches matchSSNAt text ("US_SSN") (0.9 : ℚ)

/-- `recognizeIPAddress` (score 0.85). -/
def recognizeIPAddress (text : List Char) : List RecognizerResult :=
  findMatches matchIPAt text ("IP_ADDRESS") (0.85 : ℚ)

/-- `recognizeURL` (score 0.9). -/
def recognizeURL (text : List Char) : List RecognizerResult :=
  findMatches matchURLAt text ("URL") (0.9 : ℚ)

/-- `recognizeAll`: concatenation of the six static recognizers, in source
order. -/
def recognizeAll (text : List Char) : List RecognizerResult :=
  recognizeEmail text ++ recognizePhone text ++ recognizeCreditCard text ++
    recognizeSSN text ++ recognizeIPAddress text ++ recognizeURL text

end PatternRecognizer

/-! ## Class-based `PatternRecognizer` (`src/recognizers/PatternRecognizer.ts`,
part of the engine pair) — the credit-card entity -/

namespace EnginePatternRecognizer

/-- Decimal value of a digit character. -/
def charDigit (c : Char) : Nat := c.toNat - ('0').toNat

/-- The summing loop of `validateCreditCard`, over the reversed digit list
(the source iterates from the last character; `isEven` starts `false` and
toggles each step, doubling when it is `true`). -/
def luhnAux : List Char → Bool → Nat
  | [], _ => 0
  | c :: rest, dbl =>
    let d := charDigit c
    (if dbl then (if 9 < 2 * d then 2 * d - 9 else 2 * d) else d) + luhnAux rest (!dbl)

/-- `validateCreditCard`: strip `[\s-]`, require 13–19 digits, Luhn mod-10. -/
def validateCreditCard (cardNumber : List Char) : Bool :=
  let cleaned := cardNumber.filter (fun c => !(isJsSpace c || c = '-'))
  if 13 ≤ cleaned.length && cleaned.length ≤ 19 && cleaned.all Char.isDigit then
    luhnAux cleaned.reverse false % 10 = 0
  else false

/-- Context words of `EntityType.CREDIT_CARD` (stored lowercase; the source
lowercases both the window and the word before comparing). -/
def ccContextWords : List (List Char) :=
  [("card").toList, ("credit").toList, ("visa").toList, ("mastercard").toList]

/-- The score computation of the class-based `analyze`: base score 0.85,
boosted by 0.1 (capped at 0.95) when a context word occurs in the ±50-character
window around the match (`Math.max(0, start - 50)` is saturating subtraction on
`Nat`). -/
def contextualScore (text : List Char) (s e : Nat) (base : ℚ)
    (words : List (List Char)) : ℚ :=
  let window := toLowerChars (jsSubstring text (s - 50) (min text.length (e + 50)))
  if words.any (fun w => jsIncludes window w) then min (0.95 : ℚ) (base + 0.1) else base

/-- The class-based `PatternRecognizer.analyze` specialised to the call
`analyze text [CREDIT_CARD]`: iterate the credit-card pattern's matches,
compute the contextual score, and keep only matches passing
`validateCreditCard` (the `continue` in the source). -/
def analyzeCreditCard (text : List Char) : List RecognizerResult :=
  (scanAll (matchCreditCardAt text) text.length).filterMap (fun se =>
    let matchText := sliceText text se.1 se.2
    let score := contextualScore text se.1 se.2 (0.85 : ℚ) ccContextWords
    if validateCreditCard matchText then
      some ⟨("CREDIT_CARD"), se.1, se.2, score, matchText⟩
    else none)

end EnginePatternRecognizer

/-! ## `AnalyzerEngine` (`src/analyzer/AnalyzerEngine.ts`) -/

/-- A recognizer as seen by the coordinators: text in, either results or a
thrown error. -/
abbrev Recognizer := List Char → Except String (List RecognizerResult)

namespace AnalyzerEngine

/-- One iteration of the recognizer loop of `analyze`:
`try { allResults.push(...await recognizer.analyze(text)) } catch { log }`. -/
def collectStep (text : List Char) (allResults : List RecognizerResult)
    (rec : Recognizer) : List RecognizerResult :=
  match rec text with
  | Except.ok results => allResults ++ results
  | Except.error _ => allResults

/-- The recognizer loop of `analyze`. -/
def collectResults (recognizers : List Recognizer) (text : List Char) :
    List RecognizerResult :=
  recognizers.foldl (collectStep text) []

/-- One iteration of the `mergeResults` loop.  The accumulator holds the
`merged` array in reverse (head = `merged[merged.length - 1]`).  Branches, in
source order: overlap & higher score & reaches at least as far → replace;
overlap & higher score but ends earlier → drop the candidate; overlap & not
higher score & extends further → extend `last.end` (and `last.text` when
`current.text` is truthy); overlap otherwise → drop; no overlap → push. -/
def mergeStep (acc : List RecognizerResult) (current : RecognizerResult) :
    List RecognizerResult :=
  match acc with
  | [] => [current]
  | last :: rest =>
    if current.start < last.«end» then
      if last.score < current.score then
        if last.«end» ≤ current.«end» then current :: rest else last :: rest
      else
        if last.«end» < current.«end» then
          { last with
              «end» := current.«end»,
              text := if current.text ≠ [] then current.text else last.text } :: rest
        else last :: rest
    else current :: last :: rest

/-- `mergeResults`: sort by `start` ascending (stable), then the merge walk. -/
def mergeResults (results : List RecognizerResult) : List RecognizerResult :=
  if results = [] then []
  else ((results.insertionSort byStartLe).foldl mergeStep []).reverse

/-- The constructor line `this.scoreThreshold = config.scoreThreshold || 0.5`
(JS `||`: an explicit 0 is falsy and also yields 0.5). -/
def scoreThresholdOf : Option ℚ → ℚ
  | none => (0.5 : ℚ)
  | some q => if q = 0 then (0.5 : ℚ) else q

/-- `AnalyzerEngine.analyze` (the recognizer list and threshold stand for the
instance state set up by the constructor): empty/whitespace short-circuit,
collect with per-recognizer catch, merge, filter by threshold. -/
def analyze (recognizers : List Recognizer) (scoreThreshold : ℚ)
    (text : List Char) : List RecognizerResult :=
  if text = [] ∨ jsTrim text = [] then []
  else
    (mergeResults (collectResults recognizers text)).filter
      (fun result => scoreThreshold ≤ result.score)

end AnalyzerEngine

/-! ## `PresidioAnalyzer` (`src/analyzer.ts`) -/

namespace PresidioAnalyzer

/-- The overlap test of `removeOverlaps` (`filtered.some(existing => …)`). -/
def hasOverlap (result existing : RecognizerResult) : Bool :=
  (existing.start ≤ result.start && result.start < existing.«end») ||
  (existing.start < result.«end» && result.«end» ≤ existing.«end») ||
  (result.start ≤ existing.start && existing.«end» ≤ result.«end»)

/-- `removeOverlaps`: sort by start ascending then score descending, greedily
keep each result that overlaps nothing already kept. -/
def removeOverlaps (results : List RecognizerResult) : List RecognizerResult :=
  if results = [] then results
  else
    (results.insertionSort byStartThenScore).foldl
      (fun filtered result =>
        if filtered.any (fun existing => hasOverlap result existing) then filtered
        else filtered ++ [result])
      []

/-- `PresidioAnalyzer.analyze` (the NER recognizer is the external
collaborator `ner`, used when `useNER`): pattern results, then NER results
(no try/catch — an NER error rejects the whole call), optional entity filter,
`removeOverlaps`, sort by start. -/
def analyze (useNER : Bool) (ner : Recognizer) (text : List Char)
    (entities : Option (List String)) : Except String (List RecognizerResult) :=
  let patternResults := PatternRecognizer.recognizeAll text
  match (if useNER then ner text else Except.ok []) with
  | Except.error e => Except.error e
  | Except.ok nerResults =>
    let results := patternResults ++ nerResults
    let filteredResults :=
      match entities with
      | some es => results.filter (fun r => es.contains r.entityType)
      | none => results
    Except.ok ((removeOverlaps filteredResults).insertionSort byStartLe)

end PresidioAnalyzer

/-! ## Engine operators (`src/anonymizer/Operators.ts`) -/

/-- The operator classes, as the data their constructors store. -/
inductive Operator where
  | RedactOperator (replacement : List Char)
  | ReplaceOperator (newValue : List Char)
  | MaskOperator (maskingChar : List Char) (charsToMask : Int) (fromEnd : Bool)
  | HashOperator (hashType : String)
  | EncryptOperator (key : List Char)
  deriving DecidableEq, Repr

/-- JS `a || b` for an optional string (undefined and the empty string are
falsy). -/
def jsOrChars (o : Option (List Char)) (d : List Char) : List Char :=
  match o with
  | some s => if s = [] then d else s
  | none => d

/-- JS `a || b` for an optional string-valued option. -/
def jsOrStr (o : Option String) (d : String) : String :=
  match o with
  | some s => if s = "" then d else s
  | none => d

/-- JS `a || b` for an optional number (undefined and 0 are falsy). -/
def jsOrInt (o : Option Int) (d : Int) : Int :=
  match o with
  | some n => if n = 0 then d else n
  | none => d

namespace OperatorFactory

/-- `OperatorFactory.createOperator`: the `switch` over `config.type`
(a TS string enum value at runtime), throwing on a missing encryption key and
on any unhandled type (which includes `OperatorType.CUSTOM`). -/
def createOperator (config : OperatorConfig) : Except String Operator :=
  if config.type = ("redact" : String) then
    Except.ok (Operator.RedactOperator (config.newValue.getD []))
  else if config.type = ("replace" : String) then
    Except.ok (Operator.ReplaceOperator (jsOrChars config.newValue (("<ANONYMIZED>").toList)))
  else if config.type = ("mask" : String) then
    Except.ok (Operator.MaskOperator (jsOrChars config.maskingChar (("*").toList))
      (jsOrInt config.charsToMask (-1)) (config.fromEnd.getD false))
  else if config.type = ("hash" : String) then
    Except.ok (Operator.HashOperator (jsOrStr config.hashType ("sha256")))
  else if config.type = ("encrypt" : String) then
    match config.newValue with
    | none => Except.error ("Encryption key is required for ENCRYPT operator")
    | some k =>
      if k = [] then Except.error ("Encryption key is required for ENCRYPT operator")
      else Except.ok (Operator.EncryptOperator k)
  else Except.error ("Unsupported operator type: " ++ config.type)

end OperatorFactory

/-- `Operator.operate text start end` for each operator class.  `digestHex`
stands for `crypto.createHash(hashType).update(s).digest('hex')` and
`encryptB64` for the XOR-plus-base64 of `EncryptOperator` — both external
primitives.  (`MaskOperator` with a negative `charsToMask` other than the `-1`
sentinel would throw a `RangeError` in JS via `String.repeat`; that case is
modelled by saturation to 0 and is not exercised.) -/
def Operator.operate (digestHex : String → List Char → List Char)
    (encryptB64 : List Char → List Char → List Char) (op : Operator)
    (text : List Char) (start endp : Nat) : List Char :=
  match op with
  | Operator.RedactOperator replacement =>
    jsSubstring text 0 start ++ replacement ++ jsSubstringFrom text endp
  | Operator.ReplaceOperator newValue =>
    jsSubstring text 0 start ++ newValue ++ jsSubstringFrom text endp
  | Operator.MaskOperator maskingChar charsToMask fromEnd =>
    let entityText := jsSubstring text start endp
    let entityLength := entityText.length
    let maskedText :=
      if charsToMask = -1 then repeatChars maskingChar entityLength
      else
        let numToMask := (min charsToMask (entityLength : Int)).toNat
        if fromEnd then
          jsSubstring entityText 0 (entityLength - numToMask) ++
            repeatChars maskingChar numToMask
        else
          repeatChars maskingChar numToMask ++ jsSubstringFrom entityText numToMask
    jsSubstring text 0 start ++ maskedText ++ jsSubstringFrom text endp
  | Operator.HashOperator hashType =>
    jsSubstring text 0 start ++ digestHex hashType (jsSubstring text start endp) ++
      jsSubstringFrom text endp
  | Operator.EncryptOperator key =>
    jsSubstring text 0 start ++ encryptB64 key (jsSubstring text start endp) ++
      jsSubstringFrom text endp

/-! ## `AnonymizerEngine` (`src/anonymizer/AnonymizerEngine.ts`) -/

namespace AnonymizerEngine

/-- The body of the `for (const result of sortedResults)` loop.  State:
`(anonymizedText, items)`; `items.unshift(item)` is modelled by prepending.
`createOperator` throwing aborts the whole call.  The item records the
operator config type, the entity type, the *original* `start`/`end`, and
`originalText` — the current text between `start` and `end` (the computed
`newEnd` in the source is dead code and is omitted). -/
def anonymizeGo (digestHex : String → List Char → List Char)
    (encryptB64 : List Char → List Char → List Char)
    (defaultOperator : OperatorConfig)
    (operatorsByEntity : List (String × OperatorConfig)) :
    List RecognizerResult → List Char × List AnonymizerItem →
      Except String (List Char × List AnonymizerItem)
  | [], st => Except.ok st
  | result :: rest, st =>
    let operatorConfig := (operatorsByEntity.lookup result.entityType).getD defaultOperator
    match OperatorFactory.createOperator operatorConfig with
    | Except.error e => Except.error e
    | Except.ok op =>
      let originalText := jsSubstring st.1 result.start result.«end»
      let newText := Operator.operate digestHex encryptB64 op st.1 result.start result.«end»
      anonymizeGo digestHex encryptB64 defaultOperator operatorsByEntity rest
        (newText,
          ⟨result.start, result.«end», result.entityType, originalText,
            operatorConfig.type⟩ :: st.2)

/-- `AnonymizerEngine.anonymize` (constructor state passed as parameters;
the engine's built-in default is `{ type: REPLACE, newValue: '<ANONYMIZED>' }`
when none is configured): guard on empty text or empty results, sort
descending by `start`, run the loop, then `items.reverse()`. -/
def anonymize (digestHex : String → List Char → List Char)
    (encryptB64 : List Char → List Char → List Char)
    (defaultOperator : OperatorConfig)
    (operatorsByEntity : List (String × OperatorConfig))
    (text : List Char) (analyzerResults : List RecognizerResult) :
    Except String AnonymizerResult :=
  if text = [] ∨ analyzerResults = [] then Except.ok ⟨text, []⟩
  else
    let sortedResults := analyzerResults.insertionSort byStartDesc
    match anonymizeGo digestHex encryptB64 defaultOperator operatorsByEntity
        sortedResults (text, []) with
    | Except.error e => Except.error e
    | Except.ok st => Except.ok ⟨st.1, st.2.reverse⟩

end AnonymizerEngine

/-! ## `PresidioAnonymizer` (`src/anonymizer.ts`) -/

namespace PresidioAnonymizer

/-- `maskValue`: `!charsToMask || charsToMask >= value.length` masks the whole
value; otherwise mask exactly `charsToMask` characters from the chosen side.
(As above, a negative `charsToMask` would throw in JS and is saturated here.) -/
def maskValue (value maskingChar : List Char) (charsToMask : Option Int)
    (fromEnd : Option Bool) : List Char :=
  let maskAll :=
    match charsToMask with
    | none => true
    | some n => n = 0 || (value.length : Int) ≤ n
  if maskAll then repeatChars maskingChar value.length
  else
    let n := (charsToMask.getD 0).toNat
    if fromEnd.getD false then
      jsSubstring value 0 (value.length - n) ++ repeatChars maskingChar n
    else
      repeatChars maskingChar n ++ jsSubstringFrom value n

/-- `hashValue`: SHA-256 hex digest truncated to 16 characters (`sha256Hex` is
the external crypto primitive). -/
def hashValue (sha256Hex : List Char → List Char) (value : List Char) : List Char :=
  (sha256Hex value).take 16

/-- `applyOperator`: the `switch` over `operator.type`, in source order; the
`default` branch silently behaves like REDACT. -/
def applyOperator (sha256Hex : List Char → List Char) (value : List Char)
    (operator : OperatorConfig) (entityType : String) : List Char :=
  if operator.type = ("redact" : String) then
    ('<' :: entityType.toList) ++ ['>']
  else if operator.type = ("replace" : String) then
    jsOrChars operator.newValue (('<' :: entityType.toList) ++ ['>'])
  else if operator.type = ("mask" : String) then
    maskValue value (jsOrChars operator.maskingChar (("*").toList))
      operator.charsToMask operator.fromEnd
  else if operator.type = ("hash" : String) then
    hashValue sha256Hex value
  else
    ('<' :: entityType.toList) ++ ['>']

/-- The item pushed for one result: positions relative to the original text,
`end` adjusted to the replacement length, `text` = the inserted replacement. -/
def itemFor (sha256Hex : List Char → List Char) (defaultOperator : OperatorConfig)
    (operators : Option (List (String × OperatorConfig)))
    (result : RecognizerResult) : AnonymizerItem :=
  let op := (match operators with
    | some m => m.lookup result.entityType
    | none => none).getD defaultOperator
  let anonymizedValue := applyOperator sha256Hex result.text op result.entityType
  ⟨result.start, result.start + anonymizedValue.length, result.entityType,
    anonymizedValue, op.type⟩

/-- `PresidioAnonymizer.anonymize`: sort descending by `start`, splice each
replacement into the working text (`applyOperator` is applied to
`result.text`, the recognizer-recorded span text), `items.push(...)`, and a
final `items.reverse()`. -/
def anonymize (sha256Hex : List Char → List Char)
    (defaultOperator : OperatorConfig)
    (operators : Option (List (String × OperatorConfig)))
    (text : List Char) (analyzerResults : List RecognizerResult) :
    AnonymizerResult :=
  let sortedResults := analyzerResults.insertionSort byStartDesc
  let st := sortedResults.foldl
    (fun (st : List Char × List AnonymizerItem) result =>
      let item := itemFor sha256Hex defaultOperator operators result
      let newText := jsSubstring st.1 0 result.start ++ item.text ++
        jsSubstringFrom st.1 result.«end»
      (newText, st.2 ++ [item]))
    (text, [])
  ⟨st.1, st.2.reverse⟩

end PresidioAnonymizer

/-! ## Helper lemmas -/

/-- The chain relation maintained (in reverse) by the `mergeResults` walk:
the element accepted later starts at or after both the end and the start of
the element accepted just before it. -/
def MergeRel (x y : RecognizerResult) : Prop :=
  y.«end» ≤ x.start ∧ y.start ≤ x.start

/-- The claim's non-overlap relation on an ordered pair of spans. -/
def NoOverlap (a b : RecognizerResult) : Prop :=
  ¬(a.start < b.«end» ∧ b.start < a.«end»)

theorem mergeStep_chain (acc : List RecognizerResult) (c : RecognizerResult)
    (hacc : List.Chain' MergeRel acc)
    (hhead : ∀ a ∈ acc.head?, a.start ≤ c.start) :
    List.Chain' MergeRel (AnalyzerEngine.mergeStep acc c) := by
  match acc with
  | [] => simp [AnalyzerEngine.mergeStep]
  | last :: rest =>
    have hlast : last.start ≤ c.start := hhead last (by simp)
    have hreplace : List.Chain' MergeRel (c :: rest) := by
      match rest, hacc with
      | [], _ => simp
      | p :: rest2, hacc =>
        rcases (List.chain'_cons).1 hacc with ⟨⟨hpe, hps⟩, hrest⟩
        exact (List.chain'_cons).2 ⟨⟨le_trans hpe hlast, le_trans hps hlast⟩, hrest⟩
    have hextend : ∀ t : List Char,
        List.Chain' MergeRel ({ last with «end» := c.«end», text := t } :: rest) := by
      intro t
      match rest, hacc with
      | [], _ => simp
      | p :: rest2, hacc =>
        rcases (List.chain'_cons).1 hacc with ⟨⟨hpe, hps⟩, hrest⟩
        exact (List.chain'_cons).2 ⟨⟨hpe, hps⟩, hrest⟩
    rw [AnalyzerEngine.mergeStep]
    split_ifs with h1 h2 h3 h4 h5
    · exact hreplace
    · exact hacc
    · exact hextend _
    · exact hextend _
    · exact hacc
    · exact (List.chain'_cons).2 ⟨⟨le_of_not_lt h1, hlast⟩, hacc⟩

theorem mergeStep_head (acc : List RecognizerResult) (c d : RecognizerResult)
    (hhead : ∀ a ∈ acc.head?, a.start ≤ c.start) (hcd : c.start ≤ d.start) :
    ∀ a ∈ (AnalyzerEngine.mergeStep acc c).head?, a.start ≤ d.start := by
  match acc with
  | [] =>
    intro a ha
    simp only [AnalyzerEngine.mergeStep, List.head?_cons, Option.mem_def,
      Option.some.injEq] at ha
    subst ha
    exact hcd
  | last :: rest =>
    have hlast : last.start ≤ c.start := hhead last (by simp)
    intro a ha
    rw [AnalyzerEngine.mergeStep] at ha
    split_ifs at ha <;>
      simp only [List.head?_cons, Option.mem_def, Option.some.injEq] at ha <;>
      subst ha
    · exact le_trans hcd (le_refl _) |>.trans (le_refl _) |>.trans (le_refl _) |>.trans
        (le_refl _) |>.trans (le_refl _)
    · exact le_trans hlast hcd
    · exact le_trans hlast hcd
    · exact le_trans hlast hcd
    · exact le_trans hlast hcd
    · exact hcd

theorem foldl_mergeStep_chain (l : List RecognizerResult)
    (acc : List RecognizerResult)
    (hsort : l.Pairwise byStartLe)
    (hacc : List.Chain' MergeRel acc)
    (hhead : ∀ a ∈ acc.head?, ∀ c ∈ l, a.start ≤ c.start) :
    List.Chain' MergeRel (l.foldl AnalyzerEngine.mergeStep acc) := by
  induction l generalizing acc with
  | nil => exact hacc
  | cons c cs ih =>
    rcases List.pairwise_cons.1 hsort with ⟨hc, hcs⟩
    exact ih (AnalyzerEngine.mergeStep acc c) hcs
      (mergeStep_chain acc c hacc (fun a ha => hhead a ha c (by simp)))
      (fun a ha d hd =>
        mergeStep_head acc c d (fun a2 ha2 => hhead a2 ha2 c (by simp)) (hc d hd) a ha)

theorem mergeResults_pairwise (results : List RecognizerResult) :
    (AnalyzerEngine.mergeResults results).Pairwise NoOverlap := by
  rw [AnalyzerEngine.mergeResults]
  split_ifs with h
  · simp
  · have hsorted : (results.insertionSort byStartLe).Pairwise byStartLe :=
      List.sorted_insertionSort byStartLe results
    have hchain : List.Chain' MergeRel
        ((results.insertionSort byStartLe).foldl AnalyzerEngine.mergeStep []) :=
      foldl_mergeStep_chain _ [] hsorted (by simp) (by simp)
    have hchainRev : List.Chain' (fun x y => MergeRel y x)
        ((results.insertionSort byStartLe).foldl AnalyzerEngine.mergeStep []).reverse := by
      rw [List.chain'_reverse]
      exact hchain
    have hpair :
        ((results.insertionSort byStartLe).foldl
            AnalyzerEngine.mergeStep []).reverse.Pairwise (fun x y => MergeRel y x) :=
      (@List.chain'_iff_pairwise _ _
        ⟨fun x y z ⟨h1, h2⟩ ⟨h3, h4⟩ => ⟨le_trans h1 h4, le_trans h2 h4⟩⟩ _).1 hchainRev
    exact hpair.imp (fun {a b} hab => fun hover =>
      absurd (lt_of_lt_of_le hover.2 hab.1) (lt_irrefl _))

theorem overlap_hasOverlap (r e : RecognizerResult)
    (h : r.start < e.«end» ∧ e.start < r.«end») :
    PresidioAnalyzer.hasOverlap r e = true := by
  simp only [PresidioAnalyzer.hasOverlap, Bool.or_eq_true, Bool.and_eq_true,
    decide_eq_true_eq]
  omega

theorem foldl_removeStep_pairwise (l : List RecognizerResult)
    (acc : List RecognizerResult) (hacc : acc.Pairwise NoOverlap) :
    (l.foldl
      (fun filtered result =>
        if filtered.any (fun existing => PresidioAnalyzer.hasOverlap result existing) then
          filtered
        else filtered ++ [result])
      acc).Pairwise NoOverlap := by
  induction l generalizing acc with
  | nil => exact hacc
  | cons c cs ih =>
    simp only [List.foldl_cons]
    by_cases h : (acc.any (fun existing => PresidioAnalyzer.hasOverlap c existing)) = true
    · rw [if_pos h]
      exact ih acc hacc
    · rw [if_neg h]
      have hstep : ∀ a ∈ acc, ∀ b ∈ [c], NoOverlap a b := by
        intro a ha b hb
        rw [List.mem_singleton] at hb
        rw [hb]
        intro hover
        have hfalse : PresidioAnalyzer.hasOverlap c a = false := by
          have h2 : acc.any (fun existing => PresidioAnalyzer.hasOverlap c existing) = false :=
            Bool.eq_false_iff.mpr h
          have h3 := List.any_eq_false.mp h2 a ha
          simpa using h3
        have htrue := overlap_hasOverlap c a ⟨hover.2, hover.1⟩
        rw [hfalse] at htrue
        exact Bool.false_ne_true htrue
      exact ih _ (List.pairwise_append.2 ⟨hacc, by simp, hstep⟩)

theorem removeOverlaps_pairwise (results : List RecognizerResult) :
    (PresidioAnalyzer.removeOverlaps results).Pairwise NoOverlap := by
  rw [PresidioAnalyzer.removeOverlaps]
  split_ifs with h
  · simp [h]
  · exact foldl_removeStep_pairwise _ [] (by simp)

theorem presidio_anonymize_items_foldl (sha256Hex : List Char → List Char)
    (d : OperatorConfig) (ops : Option (List (String × OperatorConfig)))
    (l : List RecognizerResult) (st0 : List Char × List AnonymizerItem) :
    (l.foldl
      (fun (st : List Char × List AnonymizerItem) result =>
        let item := PresidioAnonymizer.itemFor sha256Hex d ops result
        let newText := jsSubstring st.1 0 result.start ++ item.text ++
          jsSubstringFrom st.1 result.«end»
        (newText, st.2 ++ [item]))
      st0).2 = st0.2 ++ l.map (PresidioAnonymizer.itemFor sha256Hex d ops) := by
  induction l generalizing st0 with
  | nil => simp
  | cons r rs ih =>
    rw [List.foldl_cons, ih]
    simp

theorem collectResults_foldl (recognizers : List Recognizer) (text : List Char)
    (acc : List RecognizerResult) :
    recognizers.foldl (AnalyzerEngine.collectStep text) acc =
      acc ++ AnalyzerEngine.collectResults recognizers text := by
  induction recognizers generalizing acc with
  | nil => simp [AnalyzerEngine.collectResults]
  | cons r rs ih =>
    have h2 : AnalyzerEngine.collectResults (r :: rs) text =
        AnalyzerEngine.collectStep text [] r ++
          AnalyzerEngine.collectResults rs text := by
      show List.foldl (AnalyzerEngine.collectStep text) [] (r :: rs) = _
      rw [List.foldl_cons]
      exact ih (AnalyzerEngine.collectStep text [] r)
    rw [List.foldl_cons, ih (AnalyzerEngine.collectStep text acc r), h2]
    cases h : r text <;>
      simp [AnalyzerEngine.collectStep, h, List.append_assoc]

theorem collectResults_append (xs ys : List Recognizer) (text : List Char) :
    AnalyzerEngine.collectResults (xs ++ ys) text =
      AnalyzerEngine.collectResults xs text ++ AnalyzerEngine.collectResults ys text := by
  show List.foldl (AnalyzerEngine.collectStep text) [] (xs ++ ys) = _
  rw [List.foldl_append]
  rw [collectResults_foldl ys text]
  rfl

/-! ## Claim theorems -/

/-- Claim C1: for every input candidate list, both span resolvers
(`AnalyzerEngine.mergeResults` and `PresidioAnalyzer.removeOverlaps`) return
spans that are pairwise non-overlapping: no two output spans `a`, `b` satisfy
`a.start < b.end ∧ b.start < a.end`. -/
theorem C1_span_resolver_non_overlap (results : List RecognizerResult) :
    (AnalyzerEngine.mergeResults results).Pairwise
      (fun a b => ¬(a.start < b.«end» ∧ b.start < a.«end»)) ∧
    (PresidioAnalyzer.removeOverlaps results).Pairwise
      (fun a b => ¬(a.start < b.«end» ∧ b.start < a.«end»)) :=
  ⟨mergeResults_pairwise results, removeOverlaps_pairwise results⟩

/-- Claim C2, evaluated at the failing input: two overlapping candidates, a
0.8-score span `[0,10)` and a 0.95-score span `[5,8)` contained in it.  Both
resolvers keep the LOWER-score span and discard the 0.95 one — contradicting
the claim (and the functions' own doc comments "keeping the one with highest
score").  The third conjunct shows `mergeResults` can also extend the accepted
span's `end` (and replace its `text`) to absorb a discarded lower-score
overlapping candidate, which the claim says never happens. -/
theorem C2_overlap_resolution_keeps_lower_score :
    AnalyzerEngine.mergeResults
        [⟨("LOW"), 0, 10, 0.8, ['l']⟩, ⟨("HIGH"), 5, 8, 0.95, ['h']⟩] =
      [⟨("LOW"), 0, 10, 0.8, ['l']⟩] ∧
    PresidioAnalyzer.removeOverlaps
        [⟨("LOW"), 0, 10, 0.8, ['l']⟩, ⟨("HIGH"), 5, 8, 0.95, ['h']⟩] =
      [⟨("LOW"), 0, 10, 0.8, ['l']⟩] ∧
    AnalyzerEngine.mergeResults
        [⟨("HIGH"), 0, 10, 0.95, ['h']⟩, ⟨("LOW"), 5, 12, 0.8, ['l']⟩] =
      [⟨("HIGH"), 0, 12, 0.95, ['l']⟩] := by
  refine ⟨?_, ?_, ?_⟩ <;> with_unfolding_all rfl

/-- Claim C3, evaluated at the failing input: with two resolved spans (starts
0 and 2), `AnonymizerEngine.anonymize` returns its audit items in DESCENDING
start order `[2, 0]` (`items.unshift` already restores ascending order, and the
final `items.reverse()` — whose comment says "Return in original order" —
flips it back).  `PresidioAnonymizer.anonymize` on the same input returns
ascending `[0, 2]`. -/
theorem C3_engine_items_descending :
    ∀ (digestHex : String → List Char → List Char)
      (encryptB64 : List Char → List Char → List Char)
      (sha256Hex : List Char → List Char),
    AnonymizerEngine.anonymize digestHex encryptB64
        ⟨("replace"), some (("X").toList), none, none, none, none⟩ []
        (("abcdef").toList)
        [⟨("A"), 0, 1, 1, ['a']⟩, ⟨("B"), 2, 3, 1, ['c']⟩] =
      Except.ok ⟨("XbXdef").toList,
        [⟨2, 3, ("B"), ['c'], ("replace")⟩, ⟨0, 1, ("A"), ['a'], ("replace")⟩]⟩ ∧
    ((PresidioAnonymizer.anonymize sha256Hex
        ⟨("replace"), some (("X").toList), none, none, none, none⟩ none
        (("abcdef").toList)
        [⟨("A"), 0, 1, 1, ['a']⟩, ⟨("B"), 2, 3, 1, ['c']⟩]).items.map
      (fun it => it.start)) = [0, 2] :=
  fun _ _ _ => ⟨rfl, rfl⟩

/-- Claim C4 counterexample: `AnonymizerEngine.anonymize` inserts
`<ANONYMIZED>` into the text but records the ORIGINAL span text `"a"` in the
audit item's `text` field — not the replacement, contradicting the claim. -/
theorem C4_counterexample_engine_item_text :
    AnonymizerEngine.anonymize (fun _ v => v) (fun _ v => v)
        ⟨("replace"), some (("<ANONYMIZED>").toList), none, none, none, none⟩ []
        (("ab").toList) [⟨("PERSON"), 0, 1, 1, ['a']⟩] =
      Except.ok ⟨("<ANONYMIZED>b").toList,
        [⟨0, 1, ("PERSON"), ['a'], ("replace")⟩]⟩ ∧
    (['a'] : List Char) ≠ ("<ANONYMIZED>").toList :=
  ⟨rfl, by decide⟩

/-- Claim C4 amended: in `PresidioAnonymizer.anonymize` every audit item is
`itemFor` of its span — in particular its `text` field is the replacement
value produced by `applyOperator` and spliced into the output text.
(`AnonymizerEngine.anonymize` instead records the original span text, see the
counterexample.) -/
theorem C4_presidio_item_text_is_replacement (sha256Hex : List Char → List Char)
    (d : OperatorConfig) (ops : Option (List (String × OperatorConfig)))
    (text : List Char) (rs : List RecognizerResult) :
    (PresidioAnonymizer.anonymize sha256Hex d ops text rs).items =
      ((rs.insertionSort byStartDesc).map
        (PresidioAnonymizer.itemFor sha256Hex d ops)).reverse := by
  simp only [PresidioAnonymizer.anonymize]
  rw [presidio_anonymize_items_foldl]
  simp

/-- Claim C5 counterexample: the static `PatternRecognizer.recognizeCreditCard`
performs NO Luhn validation — applied to the Luhn-invalid number
`1234567890123456` it still returns a CREDIT_CARD result (its own test suite
even expects the Luhn-invalid `4532-1234-5678-9010` to be accepted). -/
theorem C5_counterexample_static_no_luhn :
    PatternRecognizer.recognizeCreditCard (("1234567890123456").toList) =
      [⟨("CREDIT_CARD"), 0, 16, 0.8, ("1234567890123456").toList⟩] ∧
    ([⟨("CREDIT_CARD"), 0, 16, (0.8 : ℚ), ("1234567890123456").toList⟩] :
      List RecognizerResult) ≠ [] :=
  ⟨rfl, by simp⟩

/-- Claim C5 amended: only the class-based pattern recognizer (engine pair)
validates credit-card regex matches with the Luhn checksum and discards
failures entirely: it accepts `4532015112830366` and rejects
`1234567890123456`; the static `recognizeCreditCard` has no Luhn filter and
accepts both. -/
theorem C5_luhn_validation :
    EnginePatternRecognizer.analyzeCreditCard (("4532015112830366").toList) =
      [⟨("CREDIT_CARD"), 0, 16, 0.85, ("4532015112830366").toList⟩] ∧
    EnginePatternRecognizer.analyzeCreditCard (("1234567890123456").toList) = [] ∧
    EnginePatternRecognizer.validateCreditCard (("4532015112830366").toList) = true ∧
    EnginePatternRecognizer.validateCreditCard (("1234567890123456").toList) = false ∧
    PatternRecognizer.recognizeCreditCard (("4532015112830366").toList) =
      [⟨("CREDIT_CARD"), 0, 16, 0.8, ("4532015112830366").toList⟩] := by
  refine ⟨?_, ?_, ?_, ?_, ?_⟩ <;> with_unfolding_all rfl

/-- Claim C6 counterexample: the engine's REDACT operator does NOT produce
`<ENTITY_TYPE>`: `OperatorFactory` builds `RedactOperator` with the configured
replacement, defaulting to the empty string, so the engine pipeline with a
default REDACT config turns `"Email: test@example.com"` into `"Email: "`,
not `"Email: <EMAIL_ADDRESS>"`. -/
theorem C6_counterexample_engine_redact_deletes :
    AnonymizerEngine.anonymize (fun _ v => v) (fun _ v => v)
        ⟨("redact"), none, none, none, none, none⟩ []
        (("Email: test@example.com").toList)
        (PatternRecognizer.recognizeEmail (("Email: test@example.com").toList)) =
      Except.ok ⟨("Email: ").toList,
        [⟨7, 23, ("EMAIL_ADDRESS"), ("test@example.com").toList, ("redact")⟩]⟩ ∧
    ("Email: ").toList ≠ ("Email: <EMAIL_ADDRESS>").toList :=
  ⟨rfl, by decide⟩

/-- Claim C6 amended: in `PresidioAnonymizer` the REDACT operator always
returns the entity-type tag in angle brackets, and anonymizing
`"Email: test@example.com"` with the email pattern recognizer's result and a
default REDACT operator yields exactly `"Email: <EMAIL_ADDRESS>"`.  (The
engine's `RedactOperator` instead splices in its configured replacement,
default empty — see the counterexample.) -/
theorem C6_presidio_redact_roundtrip :
    (∀ (sha256Hex : List Char → List Char) (value : List Char)
       (nv mc : Option (List Char)) (ht : Option String) (ctm : Option Int)
       (fe : Option Bool) (entityType : String),
      PresidioAnonymizer.applyOperator sha256Hex value
          ⟨("redact"), nv, mc, ht, ctm, fe⟩ entityType =
        ('<' :: entityType.toList) ++ ['>']) ∧
    (∀ sha256Hex : List Char → List Char,
      (PresidioAnonymizer.anonymize sha256Hex
          ⟨("redact"), none, none, none, none, none⟩ none
          (("Email: test@example.com").toList)
          (PatternRecognizer.recognizeEmail
            (("Email: test@example.com").toList))).text =
        ("Email: <EMAIL_ADDRESS>").toList) :=
  ⟨fun _ _ _ _ _ _ _ _ => rfl, fun _ => rfl⟩

/-- Claim C7 counterexample: `PresidioAnonymizer` never fails on an
unsupported operator type — with type `"encrypt"` (not part of its
REDACT/REPLACE/MASK/HASH enum) `anonymize` silently substitutes the REDACT
behavior instead of raising a configuration error. -/
theorem C7_counterexample_presidio_silent_fallback :
    PresidioAnonymizer.anonymize (fun v => v)
        ⟨("encrypt"), some (("key").toList), none, none, none, none⟩ none
        (("x").toList) [⟨("US_SSN"), 0, 1, 1, ['x']⟩] =
      ⟨("<US_SSN>").toList,
        [⟨0, 8, ("US_SSN"), ("<US_SSN>").toList, ("encrypt")⟩]⟩ :=
  rfl

/-- Claim C7 amended: `OperatorFactory.createOperator` (engine pair) does fail
with a configuration error, at operator-construction time, for every config
whose type is outside its handled set; `PresidioAnonymizer.applyOperator`
instead silently falls back to the REDACT behavior for every type outside its
handled set. -/
theorem C7_unknown_operator_type :
    (∀ config : OperatorConfig,
      config.type ∉
          ([("redact"), ("replace"), ("mask"), ("hash"), ("encrypt")] : List String) →
      OperatorFactory.createOperator config =
        Except.error (("Unsupported operator type: ") ++ config.type)) ∧
    (∀ (sha256Hex : List Char → List Char) (value : List Char)
       (config : OperatorConfig) (entityType : String),
      config.type ∉ ([("redact"), ("replace"), ("mask"), ("hash")] : List String) →
      PresidioAnonymizer.applyOperator sha256Hex value config entityType =
        ('<' :: entityType.toList) ++ ['>']) := by
  constructor
  · intro config h
    simp only [List.mem_cons, List.not_mem_nil, or_false, not_or] at h
    obtain ⟨h1, h2, h3, h4, h5⟩ := h
    simp [OperatorFactory.createOperator, h1, h2, h3, h4, h5]
  · intro sha256Hex value config entityType h
    simp only [List.mem_cons, List.not_mem_nil, or_false, not_or] at h
    obtain ⟨h1, h2, h3, h4⟩ := h
    simp [PresidioAnonymizer.applyOperator, h1, h2, h3, h4]

/-- Witness for C7 at concrete configs: type `"custom"` makes the factory
throw, and type `"encrypt"` makes `applyOperator` produce the redact tag. -/
theorem C7_unknown_operator_type_witness :
    OperatorFactory.createOperator ⟨("custom"), none, none, none, none, none⟩ =
      Except.error (("Unsupported operator type: ") ++ ("custom")) ∧
    PresidioAnonymizer.applyOperator (fun v => v) (("v").toList)
        ⟨("encrypt"), some (("key").toList), none, none, none, none⟩ ("PERSON") =
      ('<' :: ("PERSON").toList) ++ ['>'] :=
  ⟨C7_unknown_operator_type.1 ⟨("custom"), none, none, none, none, none⟩ (by decide),
   C7_unknown_operator_type.2 (fun v => v) (("v").toList)
     ⟨("encrypt"), some (("key").toList), none, none, none, none⟩ ("PERSON")
     (by decide)⟩

/-- Claim C8 counterexample: `PresidioAnalyzer.analyze` has no try/catch — when
its NER recognizer throws, the error propagates to the caller of `analyze`
instead of being caught and excluded. -/
theorem C8_counterexample_presidio_error_propagates :
    PresidioAnalyzer.analyze true (fun _ => Except.error ("model failure"))
        (("abc").toList) none = Except.error ("model failure") :=
  rfl

/-- Claim C8 amended: in `AnalyzerEngine.analyze` a throwing recognizer is
caught and its contribution excluded: the call returns exactly what it would
return without that recognizer (and, the model being total, no error reaches
the caller).  In `PresidioAnalyzer.analyze` an NER error propagates — see the
counterexample. -/
theorem C8_engine_excludes_failing_recognizer (xs ys : List Recognizer)
    (e : String) (scoreThreshold : ℚ) (text : List Char) :
    AnalyzerEngine.analyze (xs ++ (fun _ => Except.error e) :: ys) scoreThreshold text =
      AnalyzerEngine.analyze (xs ++ ys) scoreThreshold text := by
  rw [AnalyzerEngine.analyze, AnalyzerEngine.analyze]
  split_ifs with h
  · rfl
  · have hc : AnalyzerEngine.collectResults (xs ++ (fun _ => Except.error e) :: ys) text =
        AnalyzerEngine.collectResults (xs ++ ys) text := by
      rw [collectResults_append, collectResults_append]
      have hcons :
          AnalyzerEngine.collectResults ((fun _ => Except.error e) :: ys) text =
            AnalyzerEngine.collectResults ys text := rfl
      rw [hcons]
    rw [hc]

/-- Claim C9 counterexample: `PresidioAnalyzer.analyze` does not short-circuit
empty or whitespace-only input: its recognizers still run, and with an NER
recognizer that reports a span on the one-space text `" "`, `analyze` returns
that span rather than an empty sequence. -/
theorem C9_counterexample_presidio_no_short_circuit :
    PresidioAnalyzer.analyze true
        (fun _ => Except.ok [⟨("PERSON"), 0, 1, 0.9, [' ']⟩]) ((" ").toList) none =
      Except.ok [⟨("PERSON"), 0, 1, 0.9, [' ']⟩] ∧
    (Except.ok [(⟨("PERSON"), 0, 1, (0.9 : ℚ), [' ']⟩ : RecognizerResult)] :
        Except String (List RecognizerResult)) ≠ Except.ok [] :=
  ⟨rfl, by simp⟩

/-- Claim C9 amended: `AnalyzerEngine.analyze` short-circuits empty or
whitespace-only text to `[]` for EVERY recognizer list (so no recognizer can
influence the result); and both `anonymize` implementations return the text
unchanged with an empty audit trail when given an empty span list.
(`PresidioAnalyzer.analyze` does not short-circuit — see the counterexample.) -/
theorem C9_short_circuit_and_empty_anonymize :
    (∀ (recognizers : List Recognizer) (scoreThreshold : ℚ) (text : List Char),
      jsTrim text = [] →
      AnalyzerEngine.analyze recognizers scoreThreshold text = []) ∧
    (∀ (digestHex : String → List Char → List Char)
       (encryptB64 : List Char → List Char → List Char)
       (defaultOperator : OperatorConfig)
       (operatorsByEntity : List (String × OperatorConfig)) (text : List Char),
      AnonymizerEngine.anonymize digestHex encryptB64 defaultOperator
          operatorsByEntity text [] = Except.ok ⟨text, []⟩) ∧
    (∀ (sha256Hex : List Char → List Char) (defaultOperator : OperatorConfig)
       (operators : Option (List (String × OperatorConfig))) (text : List Char),
      PresidioAnonymizer.anonymize sha256Hex defaultOperator operators text [] =
        ⟨text, []⟩) := by
  refine ⟨?_, ?_, ?_⟩
  · intro recognizers scoreThreshold text h
    rw [AnalyzerEngine.analyze, if_pos (Or.inr h)]
  · intro digestHex encryptB64 defaultOperator operatorsByEntity text
    rw [AnonymizerEngine.anonymize, if_pos (Or.inr rfl)]
  · intro sha256Hex defaultOperator operators text
    rfl

/-- Witness for C9 at concrete inputs: a whitespace-only text with a throwing
recognizer still yields `[]`, and both anonymizers leave `"abc"` unchanged on
an empty span list. -/
theorem C9_short_circuit_witness :
    AnalyzerEngine.analyze [fun _ => Except.error ("boom")] ((1 : ℚ)/2)
        (("  ").toList) = [] ∧
    AnonymizerEngine.anonymize (fun _ v => v) (fun _ v => v)
        ⟨("redact"), none, none, none, none, none⟩ [] (("abc").toList) [] =
      Except.ok ⟨("abc").toList, []⟩ ∧
    PresidioAnonymizer.anonymize (fun v => v)
        ⟨("redact"), none, none, none, none, none⟩ none (("abc").toList) [] =
      ⟨("abc").toList, []⟩ :=
  ⟨C9_short_circuit_and_empty_anonymize.1 [fun _ => Except.error ("boom")]
      ((1 : ℚ)/2) (("  ").toList) (by decide),
   C9_short_circuit_and_empty_anonymize.2.1 (fun _ v => v) (fun _ v => v)
     ⟨("redact"), none, none, none, none, none⟩ [] (("abc").toList),
   C9_short_circuit_and_empty_anonymize.2.2 (fun v => v)
     ⟨("redact"), none, none, none, none, none⟩ none (("abc").toList)⟩

/-- Claim C10: with the default configuration (`scoreThreshold` not supplied,
so the constructor picks 0.5), every result returned by
`AnalyzerEngine.analyze` has score ≥ 0.5, and any merged candidate scoring
below 0.5 is dropped from the output. -/
theorem C10_default_threshold_filter :
    (∀ (recognizers : List Recognizer) (text : List Char) (r : RecognizerResult),
      r ∈ AnalyzerEngine.analyze recognizers (AnalyzerEngine.scoreThresholdOf none)
            text →
      (0.5 : ℚ) ≤ r.score) ∧
    (∀ (recognizers : List Recognizer) (text : List Char) (r : RecognizerResult),
      r.score < (0.5 : ℚ) →
      r ∉ AnalyzerEngine.analyze recognizers (AnalyzerEngine.scoreThresholdOf none)
            text) := by
  have main : ∀ (recognizers : List Recognizer) (text : List Char)
      (r : RecognizerResult),
      r ∈ AnalyzerEngine.analyze recognizers (AnalyzerEngine.scoreThresholdOf none)
            text →
      (0.5 : ℚ) ≤ r.score := by
    intro recognizers text r hr
    rw [AnalyzerEngine.analyze] at hr
    split_ifs at hr
    · simp at hr
    · have h2 := (List.mem_filter.mp hr).2
      simpa [AnalyzerEngine.scoreThresholdOf] using h2
  exact ⟨main, fun recognizers text r hlt hr =>
    absurd (main recognizers text r hr) (not_le.mpr hlt)⟩

/-- Witness for C10 at a concrete recognizer: a 0.85-score span passes the
default threshold, and a 0.3-score span is dropped. -/
theorem C10_default_threshold_filter_witness :
    (0.5 : ℚ) ≤ (⟨("A"), 0, 1, 0.85, ['x']⟩ : RecognizerResult).score ∧
    (⟨("B"), 0, 1, 0.3, ['x']⟩ : RecognizerResult) ∉
      AnalyzerEngine.analyze [fun _ => Except.ok [⟨("B"), 0, 1, 0.3, ['x']⟩]]
        (AnalyzerEngine.scoreThresholdOf none) (("x").toList) :=
  ⟨C10_default_threshold_filter.1 [fun _ => Except.ok [⟨("A"), 0, 1, 0.85, ['x']⟩]]
      (("x").toList) ⟨("A"), 0, 1, 0.85, ['x']⟩ (by with_unfolding_all decide),
   C10_default_threshold_filter.2 [fun _ => Except.ok [⟨("B"), 0, 1, 0.3, ['x']⟩]]
     (("x").toList) ⟨("B"), 0, 1, 0.3, ['x']⟩ (by with_unfolding_all decide)⟩
